import Mathlib

/-
  Verification of the badger-gui storage adapter (src/database/badger.go and
  src/app.go) against its natural-language specification.

  Shallow embedding conventions:
  * The badger engine is modelled as a key-ordered association list
    `Engine := List (String × String)`: badger iterates keys in ascending
    lexicographic byte order, and for the ASCII keys exercised here the
    byte order and Lean's character-wise `String` order coincide (UTF-8
    encoding preserves code-point order, and a character-level prefix is a
    byte-level prefix for valid UTF-8 strings).
  * A Go `*DB` receiver is `Option DBState`; `Option.none` is the nil pointer.
  * Go runtime panics (nil-pointer dereference, close of a closed channel)
    are modelled by the `Outcome.crash` constructor; they are distinct from
    returned errors (`Outcome.fail`).
  * The compactor shutdown channel `stopChan` is modelled by the Boolean
    `stopChanClosed` (Go semantics: `close` on an already-closed channel
    panics; receiving on a closed channel is not needed by any claim).
  * Environmental effects (the engine contents produced by `badger.Open`,
    whether `badger.Open` or `badger.DB.Close` fails) are explicit
    parameters, so the functions stay pure and executable.
  * Go numeric `int` parameters are modelled as `Int`; byte slices that only
    carry opaque payloads are modelled as `String`; the bytes installed as an
    encryption key are modelled as `List Nat` (each entry < 256).
  * Fixed engine tuning constants of the source (cache sizes, compactor
    parallelism, sync-writes, log level) and the GC tuning numbers
    (discard ratio, interval, sleep) affect no claim and carry no claim-
    relevant state; they are omitted from `BadgerOpts`/`DBState`.
  * The value-log GC goroutine (`runEventualGC`) is concurrent background
    behaviour and is not needed by any claim beyond the lifecycle of
    `stopChan`, which is modelled.
-/

/-! ## Errors and outcomes -/

/-- Model of the `DBError` values of src/database/badger.go plus the engine's
key-not-found condition and verbatim generic engine errors.
`notRunning` is `ErrNotRunning = "DB is not running"`;
`wrongPassword` is `ErrWrongPassword = "wrong username or password"`. -/
inductive Err where
  | notRunning
  | wrongPassword
  | notFound
  | generic (msg : String)
deriving DecidableEq

/-- Result of a Go call in the model: a normal value, a returned error, or a
runtime panic (which a Go caller cannot receive as an error value). -/
inductive Outcome (α : Type) where
  | ok (val : α)
  | fail (e : Err)
  | crash (msg : String)
deriving DecidableEq

/-- The Go runtime message for dereferencing a nil pointer. -/
def nilDerefMsg : String := "runtime error: invalid memory address or nil pointer dereference"

/-- The Go runtime message for closing an already-closed channel. -/
def closedChanMsg : String := "close of closed channel"

/-! ## Engine model -/

/-- Strict lexicographic order on character lists, mirroring Go
`bytes.Compare` on the keys (UTF-8 preserves code-point order, so the
character-wise comparison agrees with the byte-wise one). -/
def charListLt : List Char → List Char → Bool
  | [], [] => false
  | [], _ :: _ => true
  | _ :: _, [] => false
  | a :: as, b :: bs => if a < b then true else if b < a then false else charListLt as bs

/-- Key order used by the badger iterator. -/
def strLt (s t : String) : Bool := charListLt s.data t.data

/-- Go `bytes.HasPrefix` on keys (character-wise; for valid UTF-8 strings a
character-level prefix is exactly a byte-level prefix). -/
def strHasPrefix (p s : String) : Bool := p.data.isPrefixOf s.data

/-- The badger engine: entries in ascending key order. -/
abbrev Engine := List (String × String)

/-- Upsert of one entry, keeping key order (models
`txn.SetEntry` inside `db.badger.Update` in `Set`). -/
def engineSet : Engine → String → String → Engine
  | [], k, v => [(k, v)]
  | (k1, v1) :: rest, k, v =>
    if strLt k k1 then (k, v) :: (k1, v1) :: rest
    else if k = k1 then (k, v) :: rest
    else (k1, v1) :: engineSet rest k v

/-- Point lookup (models `txn.Get` plus `item.ValueCopy` in `Get`). -/
def engineGet : Engine → String → Option String
  | [], _ => Option.none
  | (k1, v1) :: rest, k => if k = k1 then some v1 else engineGet rest k

/-- Removal of one entry if present (models the two identical `txn.Delete`
calls in `Delete`; deleting twice equals deleting once). -/
def engineDelete : Engine → String → Engine
  | [], _ => []
  | (k1, v1) :: rest, k => if k = k1 then rest else (k1, v1) :: engineDelete rest k

/-! ## Options and store state -/

/-- Compression codec selector (`options.None`, `options.Snappy`,
`options.ZSTD` of the badger package). -/
inductive Compression where
  | None
  | Snappy
  | ZSTD
deriving DecidableEq

/-- The claim-relevant fields of `badger.Options` as assembled by `New` and
`Open`: directory, in-memory flag, encryption key bytes, compression codec. -/
structure BadgerOpts where
  dir : String
  inMemory : Bool
  encryptionKey : Option (List Nat)
  compression : Compression
deriving DecidableEq

/-- `badger.DefaultOptions(dir)`: on-disk, no encryption key, and the badger
v4 default codec Snappy (the `New` constructor then overrides the codec). -/
def defaultOptions (dir : String) : BadgerOpts :=
  { dir := dir, inMemory := false, encryptionKey := Option.none,
    compression := Compression.Snappy }

/-- The claim-relevant fields of the `DB` struct: the engine handle
(`badger *badger.DB`, nil ⇒ `Option.none`), the atomic running flag, the
shutdown channel state, and the accumulated options. -/
structure DBState where
  badger : Option Engine
  isRunning : Bool
  stopChanClosed : Bool
  badgerOpts : BadgerOpts
deriving DecidableEq

/-- `New`: nil engine handle, fresh (open) stop channel, running flag false,
default options rooted at `currentDir ++ "/.badger"` with compression forced
to `None`. `New` never fails, so the error component is always `none`. -/
def dbNew (currentDir : String) : DBState × Option Err :=
  ({ badger := Option.none, isRunning := false, stopChanClosed := false,
     badgerOpts := { defaultOptions (currentDir ++ "/.badger") with
                     compression := Compression.None } },
   Option.none)

/-- `IsRunning`: point-in-time read of the running flag. -/
def dbIsRunning (s : DBState) : Bool := s.isRunning

/-! ## Open -/

/-- One hex digit, as in Go `encoding/hex.fromHexChar`:
0-9, a-f and A-F are accepted. -/
def fromHexChar (c : Char) : Option Nat :=
  if '0' ≤ c ∧ c ≤ '9' then some (c.toNat - '0'.toNat)
  else if 'a' ≤ c ∧ c ≤ 'f' then some (c.toNat - 'a'.toNat + 10)
  else if 'A' ≤ c ∧ c ≤ 'F' then some (c.toNat - 'A'.toNat + 10)
  else Option.none

/-- Go `hex.DecodeString` on the character list: digits are consumed in
pairs, high nibble first; an odd length or a non-hex character yields an
error (`Option.none`). -/
def hexDecodeChars : List Char → Option (List Nat)
  | [] => some []
  | [_] => Option.none
  | a :: b :: rest =>
    match fromHexChar a, fromHexChar b, hexDecodeChars rest with
    | some ha, some hb, some tl => some ((ha * 16 + hb) :: tl)
    | _, _, _ => Option.none

/-- Go `hex.DecodeString` on a string. A character-level model is faithful:
a byte ≥ 0x80 is never a hex digit, so decoding succeeds exactly on pure
ASCII hex strings, where characters and bytes coincide. -/
def hexDecodeStr (s : String) : Option (List Nat) := hexDecodeChars s.data

/-- Standard UTF-8 encoding of one code point (what Go `[]byte(s)` yields
per character of a valid string). -/
def utf8Char (c : Char) : List Nat :=
  let n := c.toNat
  if n < 128 then [n]
  else if n < 2048 then [192 + n / 64, 128 + n % 64]
  else if n < 65536 then [224 + n / 4096, 128 + n / 64 % 64, 128 + n % 64]
  else [240 + n / 262144, 128 + n / 4096 % 64, 128 + n / 64 % 64, 128 + n % 64]

/-- Go `[]byte(s)`: the UTF-8 bytes of the string. -/
def utf8Bytes (s : String) : List Nat := s.data.flatMap utf8Char

/-- The encryption key bytes `Open` installs for a non-empty `key` argument:
the hex-decoded bytes when `key` decodes cleanly, else the raw bytes of the
string (`[]byte(string(hexKey))` round-trips bytes exactly in Go). -/
def decodeKeyBytes (key : String) : List Nat :=
  match hexDecodeStr key with
  | some bs => bs
  | Option.none => utf8Bytes key

/-- ASCII lowercasing, per character (Go `strings.ToLower` restricted to
ASCII; no non-ASCII character lowercases to any letter of "snappy" or
"zstd", so the comparison below is unaffected). -/
def asciiLower (s : String) : String :=
  String.mk (s.data.map (fun c =>
    if 'A' ≤ c ∧ c ≤ 'Z' then Char.ofNat (c.toNat + 32) else c))

/-- The codec chosen by the `switch strings.ToLower(compression)` in `Open`:
"snappy" and "zstd" (case-insensitively), anything else falls back to None. -/
def parseCompression (c : String) : Compression :=
  match asciiLower c with
  | "snappy" => Compression.Snappy
  | "zstd" => Compression.ZSTD
  | _ => Compression.None

/-- What the call `badger.Open(opts)` returns — environmental: the engine
contents on success, the dedicated `ErrEncryptionKeyMismatch`, or any other
engine error with its message. -/
inductive EngineOpenResult where
  | ok (eng : Engine)
  | keyMismatch
  | otherErr (msg : String)

/-- `Open(dbPath, key, compression)`. Empty path replaces the options with a
fresh in-memory configuration; otherwise the directory is pointed at
`dbPath`. A non-empty key installs `decodeKeyBytes key`. A non-empty
compression string is parsed case-insensitively. Then the engine is opened:
a key mismatch maps to `ErrWrongPassword`, any other failure is returned
verbatim, and on success the handle is stored and the running flag flips
true. `stopChan` is never touched by `Open`. -/
def dbOpen (s : DBState) (dbPath key comp : String) (res : EngineOpenResult) :
    DBState × Option Err :=
  let o1 := if dbPath = "" then { defaultOptions "" with inMemory := true }
            else { s.badgerOpts with dir := dbPath }
  let o2 := if key ≠ "" then { o1 with encryptionKey := some (decodeKeyBytes key) }
            else o1
  let o3 := if comp ≠ "" then { o2 with compression := parseCompression comp }
            else o2
  match res with
  | EngineOpenResult.keyMismatch =>
      ({ s with badgerOpts := o3, badger := Option.none }, some Err.wrongPassword)
  | EngineOpenResult.otherErr msg =>
      ({ s with badgerOpts := o3, badger := Option.none }, some (Err.generic msg))
  | EngineOpenResult.ok eng =>
      ({ s with badgerOpts := o3, badger := some eng, isRunning := true },
       Option.none)

/-! ## Set / Get / Delete -/

/-- `Set`: nil receiver or false running flag short-circuits with
`ErrNotRunning`; otherwise the engine handle is dereferenced and the entry
upserted in one transaction. -/
def dbSet (db : Option DBState) (key val : String) : Outcome DBState :=
  match db with
  | Option.none => Outcome.fail Err.notRunning
  | some s =>
    if s.isRunning = false then Outcome.fail Err.notRunning
    else
      match s.badger with
      | Option.none => Outcome.crash nilDerefMsg
      | some eng => Outcome.ok { s with badger := some (engineSet eng key val) }

/-- `Get`: same guard; then a read-only transaction fetches and copies the
value, propagating the engine's key-not-found error. -/
def dbGet (db : Option DBState) (key : String) : Outcome String :=
  match db with
  | Option.none => Outcome.fail Err.notRunning
  | some s =>
    if s.isRunning = false then Outcome.fail Err.notRunning
    else
      match s.badger with
      | Option.none => Outcome.crash nilDerefMsg
      | some eng =>
        match engineGet eng key with
        | some v => Outcome.ok v
        | Option.none => Outcome.fail Err.notFound

/-- `Delete`: same guard; then the entry is removed (twice in the source,
which is idempotent). -/
def dbDelete (db : Option DBState) (key : String) : Outcome DBState :=
  match db with
  | Option.none => Outcome.fail Err.notRunning
  | some s =>
    if s.isRunning = false then Outcome.fail Err.notRunning
    else
      match s.badger with
      | Option.none => Outcome.crash nilDerefMsg
      | some eng => Outcome.ok { s with badger := some (engineDelete eng key) }

/-! ## List / iterate -/

/-- The end-of-range sentinel `const endCursor = "end"`. -/
def endCursor : String := "end"

/-- `domain.Item` as built by the handler in `List`: a key with its value. -/
structure Item where
  key : String
  value : String
deriving DecidableEq

/-- The subsequence of entries the badger iterator visits in `iterate`:
`it.Seek(seekKey)` positions at the first key ≥ `seekKey` (the cursor when
non-empty, else the prefix), and `it.ValidForPrefix(prefix)` keeps iterating
while the current key still carries the prefix. -/
def matchedScan (eng : Engine) (pre sc : String) : List (String × String) :=
  let seekKey := if sc ≠ "" then sc else pre
  (eng.dropWhile (fun e => strLt e.1 seekKey)).takeWhile
    (fun e => strHasPrefix pre e.1)

/-- The loop body of `iterate` over the visited entries: with `iterNum = n`,
an entry seen when `n ≥ limit` sets `lastKey` to its key and breaks;
otherwise the entry is handed to the handler and `n` increments. When the
iterator runs out, the final `if iterNum < limit` check turns the
never-assigned `lastKey` into the end sentinel — or leaves it `""` when the
range was exhausted exactly at the limit. -/
def iterLoop (limit : Int) : List (String × String) → Nat → List (String × String) × String
  | [], n => ([], if (n : Int) < limit then endCursor else "")
  | e :: rest, n =>
    if (n : Int) ≥ limit then ([], e.1)
    else
      let r := iterLoop limit rest (n + 1)
      (e :: r.1, r.2)

/-- `iterate(prefix, startCursor, limit, handler)`: an end-sentinel cursor
short-circuits; otherwise the visited entries are folded by the loop.
`ValueCopy` never fails in the model, so the collected error list is empty
and the read-only commit succeeds; the error result is always nil. -/
def iterate (eng : Engine) (pre sc : String) (limit : Int) :
    List (String × String) × String :=
  if sc = endCursor then ([], endCursor)
  else iterLoop limit (matchedScan eng pre sc) 0

/-- The accumulated `domain.Items` of `List`'s handler. -/
def itemsOf (l : List (String × String)) : List Item :=
  l.map (fun e => { key := e.1, value := e.2 })

/-- `List(prefix, limit, cursor)`: the cursor dereferences to `""` when nil
or empty; the end sentinel short-circuits before the engine is touched; a
nil limit defaults to 20; then `iterate` runs against the engine handle.
`List` itself never checks the running flag or the handle for nil, so a nil
receiver or a nil handle is dereferenced inside `iterate`
(`db.badger.NewTransaction`) and panics. -/
def dbList (db : Option DBState) (pre : String) (limit : Option Int)
    (cursor : Option String) : Outcome (List Item × String) :=
  let startCursor := cursor.getD ""
  if startCursor = endCursor then Outcome.ok ([], endCursor)
  else
    let lim := limit.getD 20
    match db with
    | Option.none => Outcome.crash nilDerefMsg
    | some s =>
      match s.badger with
      | Option.none => Outcome.crash nilDerefMsg
      | some eng =>
        let r := iterate eng pre startCursor lim
        Outcome.ok (itemsOf r.1, r.2)

/-! ## Close -/

/-- The externally observable steps of `Close`, in source order. -/
inductive CloseEvent where
  | signalStop
  | engineClose
  | flagFalse
  | releaseHandle
deriving DecidableEq

/-- `Close`: nil receiver, nil handle, or a false running flag is a silent
no-op. Otherwise `close(db.stopChan)` fires (panicking if the channel is
already closed), the engine handle is closed (`closeErr` says whether that
environmental call fails; a failure is logged and returns early), and only
then the running flag flips false and the handle is released. The second
component is the trace of steps performed. -/
def dbClose (db : Option DBState) (closeErr : Bool) :
    Outcome (Option DBState) × List CloseEvent :=
  match db with
  | Option.none => (Outcome.ok Option.none, [])
  | some s =>
    match s.badger with
    | Option.none => (Outcome.ok (some s), [])
    | some _ =>
      if s.isRunning = false then (Outcome.ok (some s), [])
      else if s.stopChanClosed then (Outcome.crash closedChanMsg, [CloseEvent.signalStop])
      else
        let s1 := { s with stopChanClosed := true }
        if closeErr then
          (Outcome.ok (some s1), [CloseEvent.signalStop, CloseEvent.engineClose])
        else
          (Outcome.ok (some { s1 with isRunning := false, badger := Option.none }),
           [CloseEvent.signalStop, CloseEvent.engineClose,
            CloseEvent.flagFalse, CloseEvent.releaseHandle])

/-! ## Search (spec-modelled) -/

/-- Modelled from the spec: the `database` package code implementing
`Search` is not present under src — src/app.go only declares it in the
`Storer` interface and dispatches to it in `Call`. Per the spec, Search is
a windowed scan: skip `offset` entries whose keys match `prefix` in key
order, then collect up to `limit` subsequent matching keys (no
caller-supplied filters are exercised by the claims). -/
def dbSearch (eng : Engine) (pre : String) (limit offset : Nat) : List String :=
  ((((eng.map Prod.fst).filter (fun k => strHasPrefix pre k)).drop offset).take limit)

/-! ## Concrete fixtures -/

/-- An open, running store around a given engine. -/
def runningState (eng : Engine) : DBState :=
  { badger := some eng, isRunning := true, stopChanClosed := false,
    badgerOpts := defaultOptions "" }

/-- The spec's example store: exactly the keys "a/1","a/2","a/3","b/1". -/
def cStore : Engine := [("a/1", "1"), ("a/2", "2"), ("a/3", "3"), ("b/1", "4")]

/-- A two-key store whose prefixed range is exhausted exactly at limit 2. -/
def cStore2 : Engine := [("a/1", "1"), ("a/2", "2")]

/-! ## Helper lemmas about the iteration loop -/

/-- The cursor the loop produces over a visited sequence with `k` entries of
budget: the key of the first visited entry beyond the page when one exists,
else the end sentinel when the budget was not used up, else the
never-assigned empty string. -/
def scanCursor (scan : List (String × String)) (k : Nat) : String :=
  match scan.drop k with
  | e :: _ => e.1
  | [] => if scan.length < k then endCursor else ""

lemma scanCursor_cons (e : String × String) (rest : List (String × String)) (k : Nat) :
    scanCursor (e :: rest) (k + 1) = scanCursor rest k := by
  simp [scanCursor, Nat.succ_lt_succ_iff]

lemma iterLoop_eq (lim : Nat) (scan : List (String × String)) :
    ∀ n : Nat, iterLoop (lim : Int) scan n =
      (scan.take (lim - n), scanCursor scan (lim - n)) := by
  induction scan with
  | nil =>
    intro n
    simp only [iterLoop, List.take_nil, scanCursor, List.drop_nil, List.length_nil]
    by_cases h : n < lim
    · rw [if_pos (by exact_mod_cast h), if_pos (by omega)]
    · rw [if_neg (by exact_mod_cast h), if_neg (by omega)]
  | cons e rest ih =>
    intro n
    by_cases h : lim ≤ n
    · have hge : (lim : Int) ≤ (n : Int) := by exact_mod_cast h
      have h0 : lim - n = 0 := by omega
      simp [iterLoop, hge, h0, scanCursor]
    · have hlt : ¬ ((lim : Int) ≤ (n : Int)) := by
        intro hcon
        exact h (by exact_mod_cast hcon)
      have hk : lim - n = (lim - (n + 1)) + 1 := by omega
      simp only [iterLoop, ge_iff_le, if_neg hlt, ih (n + 1), hk,
        List.take_succ_cons, scanCursor_cons]

lemma iterate_eq (eng : Engine) (pre sc : String) (lim : Nat)
    (h : sc ≠ endCursor) :
    iterate eng pre sc (lim : Int) =
      ((matchedScan eng pre sc).take lim, scanCursor (matchedScan eng pre sc) lim) := by
  rw [iterate, if_neg h, iterLoop_eq lim (matchedScan eng pre sc) 0, Nat.sub_zero]

lemma dbList_running (eng : Engine) (pre : String) (limit : Option Int)
    (cur : Option String) (n : Nat)
    (hl : limit.getD 20 = (n : Int)) (hc : cur.getD "" ≠ endCursor) :
    dbList (some (runningState eng)) pre limit cur =
      Outcome.ok (itemsOf ((matchedScan eng pre (cur.getD "")).take n),
                  scanCursor (matchedScan eng pre (cur.getD "")) n) := by
  show (if cur.getD "" = endCursor then Outcome.ok ([], endCursor)
        else Outcome.ok (itemsOf (iterate eng pre (cur.getD "") (limit.getD 20)).1,
                         (iterate eng pre (cur.getD "") (limit.getD 20)).2)) = _
  rw [if_neg hc, hl, iterate_eq eng pre (cur.getD "") n hc]

/-! ## Claims -/

/-- C1 counterexample: on the store with exactly the keys "a/1", "a/2",
"a/3", "b/1", List with prefix "a/", limit 2 and empty cursor does not
return the cursor "a/2" claimed (the actual cursor is "a/3", the first
matching key beyond the returned page), so the claim as stated is false. -/
theorem c1_list_counterexample :
    ¬ (dbList (some (runningState cStore)) "a/" (some 2) (some "") =
        Outcome.ok ([⟨"a/1", "1"⟩, ⟨"a/2", "2"⟩], "a/2")) := by decide

/-- C1 (amended): on the store with exactly the keys "a/1", "a/2", "a/3",
"b/1", List with prefix "a/", limit 2 and empty cursor returns exactly the
entries for "a/1" and "a/2" and the cursor "a/3" (the first matching key
beyond the page); feeding that cursor back returns exactly the entry for
"a/3" and the end sentinel; a third call passing the end sentinel returns
an empty page and the end sentinel again. -/
theorem c1_list_pagination_amended :
    dbList (some (runningState cStore)) "a/" (some 2) (some "") =
      Outcome.ok ([⟨"a/1", "1"⟩, ⟨"a/2", "2"⟩], "a/3") ∧
    dbList (some (runningState cStore)) "a/" (some 2) (some "a/3") =
      Outcome.ok ([⟨"a/3", "3"⟩], endCursor) ∧
    dbList (some (runningState cStore)) "a/" (some 2) (some endCursor) =
      Outcome.ok ([], endCursor) :=
  ⟨by decide, by decide, by decide⟩

/-- C2: for every List call on an open store (any engine contents, prefix,
cursor other than the end sentinel, and any natural limit, including the
default 20 for a nil limit): if the scan stops because the limit was
reached while more matching entries remain (the visited sequence has an
entry beyond the returned page), the returned cursor is the key of that
first entry beyond the page; if the prefixed range is exhausted before the
limit is reached, the returned cursor is the end sentinel. -/
theorem c2_list_cursor (eng : Engine) (pre : String) (limit : Option Int)
    (cur : Option String) (n : Nat)
    (hl : limit.getD 20 = (n : Int)) (hc : cur.getD "" ≠ endCursor) :
    (∀ e, ((matchedScan eng pre (cur.getD "")).drop n).head? = some e →
      dbList (some (runningState eng)) pre limit cur =
        Outcome.ok (itemsOf ((matchedScan eng pre (cur.getD "")).take n), e.1)) ∧
    ((matchedScan eng pre (cur.getD "")).length < n →
      dbList (some (runningState eng)) pre limit cur =
        Outcome.ok (itemsOf ((matchedScan eng pre (cur.getD "")).take n), endCursor)) := by
  rw [dbList_running eng pre limit cur n hl hc]
  constructor
  · intro e he
    cases hm : (matchedScan eng pre (cur.getD "")).drop n with
    | nil => rw [hm] at he; cases he
    | cons f t =>
      rw [hm] at he
      cases he
      rw [scanCursor, hm]
  · intro hlen
    have hd : (matchedScan eng pre (cur.getD "")).drop n = [] :=
      List.drop_eq_nil_of_le (Nat.le_of_lt hlen)
    rw [scanCursor, hd, if_pos hlen]

/-- C2 witness: the theorem applied to the concrete four-key store with
prefix "a/", limit 2 and empty cursor, whose scan has "a/3" as the first
entry beyond the page. -/
theorem c2_list_cursor_witness :
    dbList (some (runningState cStore)) "a/" (some 2) (some "") =
      Outcome.ok (itemsOf ((matchedScan cStore "a/" ((Option.some "").getD "")).take 2),
                  "a/3") :=
  (c2_list_cursor cStore "a/" (some 2) (some "") 2 (by decide) (by decide)).1
    ("a/3", "3") (by decide)

/-- C3: Search (modelled from the spec, its database-side implementation
being absent from src) with prefix "a/", limit 10, offset 1 over the store
containing exactly the keys "a/1", "a/2", "a/3", "b/1" skips the first
matching key and returns exactly the keys "a/2" and "a/3". -/
theorem c3_search_window :
    dbSearch cStore "a/" 10 1 = ["a/2", "a/3"] := by decide

/-- C4: Set, Get and Delete on a nil receiver or on any state whose running
flag is false (a store never opened, or after Close has flipped the flag)
return the NotRunning error and never crash: the guard short-circuits
before the engine handle is dereferenced. -/
theorem c4_accessor_guard (db : Option DBState) (k v : String)
    (h : ∀ s, db = some s → s.isRunning = false) :
    dbSet db k v = Outcome.fail Err.notRunning ∧
    dbGet db k = Outcome.fail Err.notRunning ∧
    dbDelete db k = Outcome.fail Err.notRunning := by
  cases db with
  | none => exact ⟨rfl, rfl, rfl⟩
  | some s =>
    have hs : s.isRunning = false := h s rfl
    exact ⟨by simp [dbSet, hs], by simp [dbGet, hs], by simp [dbDelete, hs]⟩

/-- C4 witness: the guard theorem applied to the freshly constructed,
never-opened store. -/
theorem c4_accessor_guard_witness :
    dbSet (some (dbNew "/w").1) "k" "v" = Outcome.fail Err.notRunning ∧
    dbGet (some (dbNew "/w").1) "k" = Outcome.fail Err.notRunning ∧
    dbDelete (some (dbNew "/w").1) "k" = Outcome.fail Err.notRunning :=
  c4_accessor_guard (some (dbNew "/w").1) "k" "v"
    (fun s hs => by cases hs; rfl)

/-- C5 counterexample: on an open running store, Close does not set the
running flag to false before the engine handle is torn down — in the trace
of a successful Close, the flag flip does not precede the engine close, so
the claim as stated is false. -/
theorem c5_close_order_counterexample :
    ¬ ((dbClose (some (runningState [])) false).2.indexOf CloseEvent.flagFalse <
       (dbClose (some (runningState [])) false).2.indexOf CloseEvent.engineClose) := by
  decide

/-- C5 (amended): for every Close call on an open running store (with a
fresh stop channel) whose engine close succeeds, Close signals the stop
channel, closes the engine handle, and only then flips the running flag
false and releases the handle reference; afterwards IsRunning reports false
and the handle is gone. Close is an idempotent no-op on a nil receiver, on
a store whose handle is nil (never opened or already closed), and on a
store whose running flag is false. -/
theorem c5_close_amended (s : DBState) (e : Engine)
    (hb : s.badger = some e) (hr : s.isRunning = true)
    (hch : s.stopChanClosed = false) :
    dbClose (some s) false =
      (Outcome.ok (some { s with stopChanClosed := true, isRunning := false, badger := Option.none }),
       [CloseEvent.signalStop, CloseEvent.engineClose, CloseEvent.flagFalse,
        CloseEvent.releaseHandle]) ∧
    dbIsRunning { s with stopChanClosed := true, isRunning := false, badger := Option.none } = false ∧
    (∀ b, dbClose Option.none b = (Outcome.ok Option.none, [])) ∧
    (∀ t b, t.badger = Option.none → dbClose (some t) b = (Outcome.ok (some t), [])) ∧
    (∀ t b, t.isRunning = false → dbClose (some t) b = (Outcome.ok (some t), [])) := by
  refine ⟨by simp [dbClose, hb, hr, hch], rfl, fun b => rfl, ?_, ?_⟩
  · intro t b ht
    simp [dbClose, ht]
  · intro t b ht
    cases hbt : t.badger with
    | none => simp [dbClose, hbt]
    | some e2 => simp [dbClose, hbt, ht]

/-- C5 witness: the amended theorem applied to a concrete open running
store. -/
theorem c5_close_amended_witness :
    dbClose (some (runningState [])) false =
      (Outcome.ok (some { runningState [] with stopChanClosed := true, isRunning := false, badger := Option.none }),
       [CloseEvent.signalStop, CloseEvent.engineClose, CloseEvent.flagFalse,
        CloseEvent.releaseHandle]) :=
  (c5_close_amended (runningState []) [] rfl rfl rfl).1

lemma dbOpen_encKey (s : DBState) (dbPath key comp : String)
    (res : EngineOpenResult) :
    ((dbOpen s dbPath key comp res).1).badgerOpts.encryptionKey =
      (if key ≠ "" then some (decodeKeyBytes key)
       else if dbPath = "" then Option.none
       else s.badgerOpts.encryptionKey) := by
  cases res <;> by_cases hk : key = "" <;> by_cases hp : dbPath = "" <;>
    by_cases hcm : comp = "" <;>
    simp [dbOpen, hk, hp, hcm, defaultOptions]

/-- C6: for every non-empty key string passed to Open, if the string decodes
cleanly as hex the decoded bytes are installed as the store's encryption
key, otherwise the raw (UTF-8) bytes of the string are installed; with an
empty key, Open on a freshly constructed store installs no encryption key. -/
theorem c6_open_encryption_key (s : DBState) (dbPath comp cwd : String)
    (res : EngineOpenResult) (key : String) :
    (key ≠ "" → ∀ bs, hexDecodeStr key = some bs →
      ((dbOpen s dbPath key comp res).1).badgerOpts.encryptionKey = some bs) ∧
    (key ≠ "" → hexDecodeStr key = Option.none →
      ((dbOpen s dbPath key comp res).1).badgerOpts.encryptionKey =
        some (utf8Bytes key)) ∧
    ((dbOpen (dbNew cwd).1 dbPath "" comp res).1).badgerOpts.encryptionKey =
      Option.none := by
  refine ⟨?_, ?_, ?_⟩
  · intro hk bs hdec
    rw [dbOpen_encKey, if_pos hk]
    simp [decodeKeyBytes, hdec]
  · intro hk hdec
    rw [dbOpen_encKey, if_pos hk]
    simp [decodeKeyBytes, hdec]
  · rw [dbOpen_encKey]
    by_cases hp : dbPath = "" <;> simp [hp, dbNew, defaultOptions]

/-- C6 witness: opening with the hex key "0aff" installs the decoded bytes
[10, 255]. -/
theorem c6_open_encryption_key_witness :
    ((dbOpen (dbNew "/w").1 "/d" "0aff" "" (EngineOpenResult.ok [])).1).badgerOpts.encryptionKey =
      some [10, 255] :=
  (c6_open_encryption_key (dbNew "/w").1 "/d" "" "/w" (EngineOpenResult.ok [])
    "0aff").1 (by decide) [10, 255] (by decide)

/-- C7: when the engine open fails with the dedicated encryption-key
mismatch (what badger reports for a pre-existing encrypted store opened
with a wrong key), Open returns the wrong-credential error; every other
engine open failure is returned verbatim as a generic error, which is never
the wrong-credential error. -/
theorem c7_open_error_mapping (s : DBState) (dbPath key comp msg : String) :
    (dbOpen s dbPath key comp EngineOpenResult.keyMismatch).2 =
      some Err.wrongPassword ∧
    (dbOpen s dbPath key comp (EngineOpenResult.otherErr msg)).2 =
      some (Err.generic msg) ∧
    Err.generic msg ≠ Err.wrongPassword :=
  ⟨by simp [dbOpen], by simp [dbOpen], by simp⟩

/-- C8: the code violates the resumability claim. On the store with exactly
the keys "a/1", "a/2" (whose prefixed range is exhausted exactly at the
limit), the first List call with prefix "a/", limit 2 and empty cursor
returns both entries and the empty-string cursor (the end sentinel is only
assigned when strictly fewer than limit entries were seen); feeding that
cursor back restarts the scan from the beginning of the prefix, so the
concatenation of the two pages duplicates "a/1" and differs from the single
unbroken scan with limit 2+1. -/
theorem c8_resumability_failing_input :
    dbList (some (runningState cStore2)) "a/" (some 2) (some "") =
      Outcome.ok ([⟨"a/1", "1"⟩, ⟨"a/2", "2"⟩], "") ∧
    dbList (some (runningState cStore2)) "a/" (some 1) (some "") =
      Outcome.ok ([⟨"a/1", "1"⟩], "a/2") ∧
    dbList (some (runningState cStore2)) "a/" (some 3) (some "") =
      Outcome.ok ([⟨"a/1", "1"⟩, ⟨"a/2", "2"⟩], endCursor) ∧
    ([⟨"a/1", "1"⟩, ⟨"a/2", "2"⟩] ++ [⟨"a/1", "1"⟩] : List Item) ≠
      [⟨"a/1", "1"⟩, ⟨"a/2", "2"⟩] :=
  ⟨by decide, by decide, by decide, by decide⟩

/-- C9: unlike Set, Get and Delete, List performs no running-flag or
nil-handle guard: on any state whose engine handle is nil (never opened, or
after Close released it), List with any prefix, limit and any cursor other
than the end sentinel dereferences the nil handle and crashes, while Set,
Get and Delete on the same state (running flag false) return the NotRunning
error. -/
theorem c9_list_unguarded (s : DBState) (pre : String) (limit : Option Int)
    (cur : Option String) (hb : s.badger = Option.none)
    (hc : cur.getD "" ≠ endCursor) :
    dbList (some s) pre limit cur = Outcome.crash nilDerefMsg ∧
    (s.isRunning = false → ∀ k v,
      dbSet (some s) k v = Outcome.fail Err.notRunning ∧
      dbGet (some s) k = Outcome.fail Err.notRunning ∧
      dbDelete (some s) k = Outcome.fail Err.notRunning) := by
  constructor
  · simp [dbList, hc, hb]
  · intro hr k v
    exact ⟨by simp [dbSet, hr], by simp [dbGet, hr], by simp [dbDelete, hr]⟩

/-- C9 witness: the theorem applied to the freshly constructed, never-opened
store with a non-sentinel cursor. -/
theorem c9_list_unguarded_witness :
    dbList (some (dbNew "/w").1) "p" Option.none (some "c") =
      Outcome.crash nilDerefMsg ∧
    (dbSet (some (dbNew "/w").1) "k1" "v1" = Outcome.fail Err.notRunning ∧
     dbGet (some (dbNew "/w").1) "k1" = Outcome.fail Err.notRunning ∧
     dbDelete (some (dbNew "/w").1) "k1" = Outcome.fail Err.notRunning) :=
  ⟨(c9_list_unguarded (dbNew "/w").1 "p" Option.none (some "c") rfl (by decide)).1,
   (c9_list_unguarded (dbNew "/w").1 "p" Option.none (some "c") rfl (by decide)).2
     rfl "k1" "v1"⟩

/-- C10: the compactor shutdown channel is created once in New and never
recreated by Open (the first conjunct: no Open call changes the channel
state), so after a successful Open, Close, Open sequence the reopened store
is running but its channel is already closed, and a second Close panics by
closing the closed channel instead of shutting down cleanly. -/
theorem c10_reopen_close_panics (cwd p1 k1 c1 p2 k2 c2 : String)
    (e1 e2 : Engine) (b2 : Bool) :
    (∀ t pth ky cm r, ((dbOpen t pth ky cm r).1).stopChanClosed = t.stopChanClosed) ∧
    ∃ s2 : DBState,
      (dbClose (some ((dbOpen (dbNew cwd).1 p1 k1 c1 (EngineOpenResult.ok e1)).1)) false).1 =
        Outcome.ok (some s2) ∧
      s2.stopChanClosed = true ∧
      ((dbOpen s2 p2 k2 c2 (EngineOpenResult.ok e2)).1).isRunning = true ∧
      (dbClose (some ((dbOpen s2 p2 k2 c2 (EngineOpenResult.ok e2)).1)) b2).1 =
        Outcome.crash closedChanMsg := by
  refine ⟨fun t pth ky cm r => by cases r <;> rfl, ?_⟩
  refine ⟨{ (dbOpen (dbNew cwd).1 p1 k1 c1 (EngineOpenResult.ok e1)).1 with stopChanClosed := true, isRunning := false, badger := Option.none }, rfl, rfl, rfl, rfl⟩
